import Mathlib

/-!
Verification of the entry-classification and size-aggregation logic of
`tlapkinfo.py`, a tool that reports size statistics of APK (zip) archives.

The embedding follows the source closely:
* `ZipEntry` models one central-directory record (`zipfile.ZipInfo` fields
  actually used: `filename`, `compress_type`, `compress_size`, `file_size`).
* Python's `str.startswith` / `str.endswith` are exactly the prefix / suffix
  tests on the character sequence; they are modelled as `strStartsWith` /
  `strEndsWith` over `String.data` so that they compute in the kernel.
* `ApkData` is the eight-counter report record (the `namedtuple` at line 33).
* `processEntry` is the body of the `for` loop of `extractapk` (lines 97-124),
  with the `matched` flag threaded explicitly.
* `extractapk` includes the per-entry display-label lookup (line 128), which
  raises a `KeyError` on an unknown compression method when per-entry
  printing is enabled; it is modelled in `Except`.
* `mainBatch` models the directory-batch loop of `main` (lines 199-201),
  which has no exception handler: the first failing archive aborts the loop.
-/

/-- Python `s.startswith(p)`: `p` is a prefix of the character sequence of `s`. -/
def strStartsWith (s p : String) : Bool := p.data.isPrefixOf s.data

/-- Python `s.endswith(p)`: `p` is a suffix of the character sequence of `s`. -/
def strEndsWith (s p : String) : Bool := p.data.isSuffixOf s.data

/-- One zip central-directory record, with the fields `extractapk` reads. -/
structure ZipEntry where
  filename : String
  compress_type : Nat
  compress_size : Nat
  file_size : Nat
deriving DecidableEq, Repr

/-- `zipfile.ZIP_STORED`. -/
def ZIP_STORED : Nat := 0

/-- `zipfile.ZIP_DEFLATED`. -/
def ZIP_DEFLATED : Nat := 8

/-- `imagelist` (line 31). -/
def imagelist : List String := [".png", ".jpg", ".jpeg", ".bmp", ".gif"]

/-- `isasset` (lines 76-80): loop over `imagelist` returning `True` on the
first extension match, `False` if none matches. -/
def isasset (f : String) : Bool :=
  imagelist.any (fun ext => strEndsWith f ext)

/-- The `ApkData` namedtuple (lines 33-35), field order as in the source. -/
structure ApkData where
  storedsize : Nat
  uctotalsize : Nat
  assetsize : Nat
  metainfsize : Nat
  xmlsize : Nat
  miscsize : Nat
  cassetsize : Nat
  ucassetsize : Nat
deriving DecidableEq, Repr

/-- The zero-initialised counters (lines 89-96). -/
def initApkData : ApkData := ⟨0, 0, 0, 0, 0, 0, 0, 0⟩

/-- Lines 99-102: stored-size accounting for one entry. -/
def step_stored (d : ApkData) (i : ZipEntry) : ApkData :=
  if i.compress_type ≠ ZIP_DEFLATED then
    { d with storedsize := d.storedsize + i.file_size }
  else
    { d with storedsize := d.storedsize + i.compress_size }

/-- Lines 106-108: META-INF test; the `Bool` component is the `matched` flag. -/
def step_metainf (s : ApkData × Bool) (i : ZipEntry) : ApkData × Bool :=
  if strStartsWith i.filename "META-INF/" then
    ({ s.1 with metainfsize := s.1.metainfsize + i.file_size }, true)
  else s

/-- Lines 110-117: asset test with the stored-vs-deflated split. -/
def step_asset (s : ApkData × Bool) (i : ZipEntry) : ApkData × Bool :=
  if isasset i.filename then
    if i.compress_type ≠ ZIP_DEFLATED then
      ({ s.1 with assetsize := s.1.assetsize + i.file_size,
                  ucassetsize := s.1.ucassetsize + i.file_size }, true)
    else
      ({ s.1 with assetsize := s.1.assetsize + i.compress_size,
                  cassetsize := s.1.cassetsize + i.compress_size }, true)
  else s

/-- Lines 119-121: XML test. -/
def step_xml (s : ApkData × Bool) (i : ZipEntry) : ApkData × Bool :=
  if strEndsWith i.filename ".xml" then
    ({ s.1 with xmlsize := s.1.xmlsize + i.file_size }, true)
  else s

/-- The body of the `for` loop of `extractapk` (lines 97-124), counter
updates only (the per-entry print at lines 126-129 is modelled separately). -/
def processEntry (d : ApkData) (i : ZipEntry) : ApkData :=
  let d1 := step_stored d i
  let d2 := { d1 with uctotalsize := d1.uctotalsize + i.file_size }
  let s3 := step_metainf (d2, false) i
  let s4 := step_asset s3 i
  let s5 := step_xml s4 i
  if ¬ s5.2 then { s5.1 with miscsize := s5.1.miscsize + i.file_size } else s5.1

/-- The counter aggregation of `extractapk` over the whole entry list:
a left fold of `processEntry` starting from the zero counters. -/
def aggregate (entries : List ZipEntry) : ApkData :=
  entries.foldl processEntry initApkData

/-- What one entry adds to `storedsize` (lines 99-102). -/
def storedContrib (i : ZipEntry) : Nat :=
  if i.compress_type ≠ ZIP_DEFLATED then i.file_size else i.compress_size

/-- What one entry adds to `metainfsize` (lines 106-108). -/
def metainfContrib (i : ZipEntry) : Nat :=
  if strStartsWith i.filename "META-INF/" then i.file_size else 0

/-- What one entry adds to `assetsize` (lines 110-117). -/
def assetContrib (i : ZipEntry) : Nat :=
  if isasset i.filename then
    (if i.compress_type ≠ ZIP_DEFLATED then i.file_size else i.compress_size)
  else 0

/-- What one entry adds to `ucassetsize` (lines 112-114). -/
def ucassetContrib (i : ZipEntry) : Nat :=
  if isasset i.filename then
    (if i.compress_type ≠ ZIP_DEFLATED then i.file_size else 0)
  else 0

/-- What one entry adds to `cassetsize` (lines 115-117). -/
def cassetContrib (i : ZipEntry) : Nat :=
  if isasset i.filename then
    (if i.compress_type ≠ ZIP_DEFLATED then 0 else i.compress_size)
  else 0

/-- What one entry adds to `xmlsize` (lines 119-121). -/
def xmlContrib (i : ZipEntry) : Nat :=
  if strEndsWith i.filename ".xml" then i.file_size else 0

/-- The final value of the `matched` flag for one entry: true iff any of the
META-INF, asset or XML tests fired. -/
def entryMatched (i : ZipEntry) : Bool :=
  strStartsWith i.filename "META-INF/" || isasset i.filename ||
    strEndsWith i.filename ".xml"

/-- What one entry adds to `miscsize` (lines 123-124). -/
def miscContrib (i : ZipEntry) : Nat :=
  if entryMatched i then 0 else i.file_size

/-- Field-by-field characterisation of one loop iteration. -/
theorem processEntry_eq (d : ApkData) (i : ZipEntry) :
    processEntry d i =
      ⟨d.storedsize + storedContrib i, d.uctotalsize + i.file_size,
       d.assetsize + assetContrib i, d.metainfsize + metainfContrib i,
       d.xmlsize + xmlContrib i, d.miscsize + miscContrib i,
       d.cassetsize + cassetContrib i, d.ucassetsize + ucassetContrib i⟩ := by
  simp only [processEntry, step_stored, step_metainf, step_asset, step_xml,
    storedContrib, metainfContrib, assetContrib, ucassetContrib, cassetContrib,
    xmlContrib, miscContrib, entryMatched]
  split_ifs <;> simp_all

/-- The fold computes, in every field, the start value plus the sum of the
per-entry contributions. -/
theorem foldl_processEntry (l : List ZipEntry) (d : ApkData) :
    l.foldl processEntry d =
      ⟨d.storedsize + (l.map storedContrib).sum,
       d.uctotalsize + (l.map ZipEntry.file_size).sum,
       d.assetsize + (l.map assetContrib).sum,
       d.metainfsize + (l.map metainfContrib).sum,
       d.xmlsize + (l.map xmlContrib).sum,
       d.miscsize + (l.map miscContrib).sum,
       d.cassetsize + (l.map cassetContrib).sum,
       d.ucassetsize + (l.map ucassetContrib).sum⟩ := by
  induction l generalizing d with
  | nil => simp
  | cons i l ih => simp [ih, processEntry_eq, Nat.add_assoc]

/-- `aggregate` is the componentwise sum of per-entry contributions. -/
theorem aggregate_eq (l : List ZipEntry) :
    aggregate l =
      ⟨(l.map storedContrib).sum, (l.map ZipEntry.file_size).sum,
       (l.map assetContrib).sum, (l.map metainfContrib).sum,
       (l.map xmlContrib).sum, (l.map miscContrib).sum,
       (l.map cassetContrib).sum, (l.map ucassetContrib).sum⟩ := by
  simp [aggregate, foldl_processEntry, initApkData]

/-- `compression_types` (lines 62-63). -/
def compression_types : List (Nat × String) := [(0, "stored"), (8, "deflated")]

/-- `compression_types_dict` (line 65). Python dict indexing raises `KeyError`
on a missing key, so the lookup is modelled as `Option`. -/
def compression_types_dict (k : Nat) : Option String :=
  (compression_types.find? (fun p => p.1 == k)).map Prod.snd

/-- The errors an archive can raise: failing to open the file, a corrupt
central directory (`zipfile.BadZipFile`), or the `KeyError` of the
display-label lookup at line 128. -/
inductive ApkError where
  | archiveOpenError
  | archiveCorruptError
  | unknownCompressionMethodError (method : Nat)
deriving DecidableEq, Repr

/-- The loop of `extractapk` (lines 97-129) including the per-entry print:
when `totalonly` is false, line 128 indexes `compression_types_dict` with the
entry's method, and a missing key raises, aborting the function. The counter
updates of the current iteration precede the print, but the exception
discards the partial state: no `ApkData` is returned. -/
def extractapkAux (totalonly : Bool) : List ZipEntry → ApkData → Except ApkError ApkData
  | [], d => .ok d
  | i :: rest, d =>
    let d1 := processEntry d i
    if totalonly then extractapkAux totalonly rest d1
    else
      match compression_types_dict i.compress_type with
      | some _ => extractapkAux totalonly rest d1
      | none => .error (.unknownCompressionMethodError i.compress_type)

/-- `extractapk` (lines 88-132) on the entry list of an already-opened
archive. -/
def extractapk (entries : List ZipEntry) (totalonly : Bool) : Except ApkError ApkData :=
  extractapkAux totalonly entries initApkData

/-- `parseapk` (lines 135-148): reading the archive (`zipinfolist`) may itself
fail, so an archive is modelled as `Except ApkError (List ZipEntry)`; any
error propagates, since `parseapk` has no handler. -/
def parseapk (archive : Except ApkError (List ZipEntry)) (totalonly : Bool) :
    Except ApkError ApkData :=
  match archive with
  | .error e => .error e
  | .ok entries => extractapk entries totalonly

/-- The directory-batch loop of `main` (lines 199-201):
`for filename in find_files(pathname, '*.apk'): parseapk(...)`.
There is no `try`/`except` around the loop body, so the first archive whose
processing raises terminates the loop (and the process). The result pairs
the reports produced before the failure with the error, if any. -/
def mainBatch : List (Except ApkError (List ZipEntry)) → Bool → List ApkData × Option ApkError
  | [], _ => ([], none)
  | f :: rest, t =>
    match parseapk f t with
    | .error e => ([], some e)
    | .ok d =>
      let p := mainBatch rest t
      (d :: p.1, p.2)

/-- With `totalonly` set, no label lookup happens: `extractapk` always
succeeds and returns the fold of `processEntry`. -/
theorem extractapkAux_totalonly (l : List ZipEntry) (d : ApkData) :
    extractapkAux true l d = .ok (l.foldl processEntry d) := by
  induction l generalizing d with
  | nil => rfl
  | cons i l ih => simp [extractapkAux, ih, List.foldl_cons]

/-- The label lookup fails exactly on methods other than 0 and 8. -/
theorem compression_types_dict_eq_none (k : Nat) :
    compression_types_dict k = none ↔ k ≠ ZIP_STORED ∧ k ≠ ZIP_DEFLATED := by
  by_cases h0 : k = 0
  · subst h0
    simp [compression_types_dict, compression_types, List.find?, ZIP_STORED]
  · by_cases h8 : k = 8
    · subst h8
      simp [compression_types_dict, compression_types, List.find?, ZIP_DEFLATED]
    · have b0 : ((0 : Nat) == k) = false := by
        simp only [beq_eq_false_iff_ne]
        exact Ne.symm h0
      have b8 : ((8 : Nat) == k) = false := by
        simp only [beq_eq_false_iff_ne]
        exact Ne.symm h8
      simp [compression_types_dict, compression_types, List.find?, b0, b8,
        ZIP_STORED, ZIP_DEFLATED, h0, h8]

/-- If some entry of the list has a compression method other than 0 and 8,
then with per-entry printing enabled the loop aborts with an
unknown-compression-method error (for the first such entry reached). -/
theorem extractapkAux_unknown (l : List ZipEntry) (d : ApkData) (e : ZipEntry)
    (he : e ∈ l) (h0 : e.compress_type ≠ ZIP_STORED)
    (h8 : e.compress_type ≠ ZIP_DEFLATED) :
    ∃ m, m ≠ ZIP_STORED ∧ m ≠ ZIP_DEFLATED ∧
      extractapkAux false l d = .error (.unknownCompressionMethodError m) := by
  induction l generalizing d with
  | nil => cases he
  | cons i rest ih =>
    by_cases hi : compression_types_dict i.compress_type = none
    · have hk := (compression_types_dict_eq_none _).mp hi
      exact ⟨i.compress_type, hk.1, hk.2, by simp [extractapkAux, hi]⟩
    · rcases Option.ne_none_iff_exists'.mp hi with ⟨lbl, hl⟩
      have hir : e ∈ rest := by
        rcases List.mem_cons.mp he with hh | hh
        · subst hh
          exact absurd ((compression_types_dict_eq_none _).mpr ⟨h0, h8⟩) hi
        · exact hh
      rcases ih (processEntry d i) hir with ⟨m, hm0, hm8, hme⟩
      exact ⟨m, hm0, hm8, by simp [extractapkAux, hl, hme]⟩

/-- Per asset entry, the `assetsize` increment is exactly the `cassetsize`
increment plus the `ucassetsize` increment (one of the two being zero). -/
theorem assetContrib_eq_add (i : ZipEntry) :
    assetContrib i = cassetContrib i + ucassetContrib i := by
  simp only [assetContrib, cassetContrib, ucassetContrib]
  split_ifs <;> omega

/-- In the final report, `assetsize` is the sum of the two asset
sub-counters. -/
theorem aggregate_asset_eq (l : List ZipEntry) :
    (aggregate l).assetsize = (aggregate l).cassetsize + (aggregate l).ucassetsize := by
  simp only [aggregate_eq]
  induction l with
  | nil => rfl
  | cons i rest ih =>
    simp only [List.map_cons, List.sum_cons, assetContrib_eq_add i] at *
    omega

/-- C1: for an asset entry (name ending in `.png`, `.jpg`, `.jpeg`, `.bmp`,
`.gif`), a non-deflated entry adds its uncompressed size to both `assetsize`
and `ucassetsize` and leaves `cassetsize` unchanged; a deflated entry adds its
compressed size to both `assetsize` and `cassetsize` and leaves `ucassetsize`
unchanged — exactly one sub-counter receives the size. In particular an
archive whose only entry is a stored `.png` of uncompressed size 100 yields
`cassetsize = 0`, `ucassetsize = 100`, `assetsize = 100`. -/
theorem c1_asset_split (d : ApkData) (e : ZipEntry) (h : isasset e.filename = true) :
    (((processEntry d e).assetsize,
      (processEntry d e).cassetsize,
      (processEntry d e).ucassetsize) =
      (if e.compress_type ≠ ZIP_DEFLATED then
        (d.assetsize + e.file_size, d.cassetsize, d.ucassetsize + e.file_size)
       else
        (d.assetsize + e.compress_size, d.cassetsize + e.compress_size, d.ucassetsize))) ∧
    aggregate [⟨"icon.png", ZIP_STORED, 100, 100⟩] = ⟨100, 100, 100, 0, 0, 0, 0, 100⟩ := by
  constructor
  · simp only [processEntry_eq, assetContrib, cassetContrib, ucassetContrib, h, if_true]
    split_ifs <;> simp
  · decide

/-- Witness for C1 at the stored `.png` entry of the claim's test. -/
theorem c1_asset_split_witness :
    isasset "icon.png" = true ∧
    ((((processEntry initApkData ⟨"icon.png", ZIP_STORED, 100, 100⟩).assetsize,
       (processEntry initApkData ⟨"icon.png", ZIP_STORED, 100, 100⟩).cassetsize,
       (processEntry initApkData ⟨"icon.png", ZIP_STORED, 100, 100⟩).ucassetsize) =
       (initApkData.assetsize + 100, initApkData.cassetsize, initApkData.ucassetsize + 100)) ∧
     aggregate [⟨"icon.png", ZIP_STORED, 100, 100⟩] = ⟨100, 100, 100, 0, 0, 0, 0, 100⟩) :=
  ⟨by decide, c1_asset_split initApkData ⟨"icon.png", ZIP_STORED, 100, 100⟩ (by decide)⟩

/-- C2: every entry adds to `storedsize` its uncompressed size when its
method is not 8 (deflated) — including any non-deflate method — and its
compressed size when its method is 8, regardless of category. -/
theorem c2_stored_accounting (d : ApkData) (e : ZipEntry) :
    (processEntry d e).storedsize =
      d.storedsize +
        (if e.compress_type ≠ ZIP_DEFLATED then e.file_size else e.compress_size) := by
  simp [processEntry_eq, storedContrib]

/-- C3: the META-INF, asset and XML tests are independent: `metainfsize` and
`xmlsize` are each driven only by their own test, the residual `miscsize` is
driven only by the single `matched` boolean (the disjunction of the three
tests), and an entry `META-INF/foo.xml` contributes its uncompressed size to
both `metainfsize` and `xmlsize` and nothing to `miscsize`. -/
theorem c3_category_tests_independent (d : ApkData) (e : ZipEntry) :
    ((processEntry d e).metainfsize =
        d.metainfsize + (if strStartsWith e.filename "META-INF/" then e.file_size else 0)) ∧
    ((processEntry d e).xmlsize =
        d.xmlsize + (if strEndsWith e.filename ".xml" then e.file_size else 0)) ∧
    ((processEntry d e).miscsize =
        d.miscsize +
          (if strStartsWith e.filename "META-INF/" || isasset e.filename ||
              strEndsWith e.filename ".xml" then 0 else e.file_size)) ∧
    aggregate [⟨"META-INF/foo.xml", ZIP_DEFLATED, 10, 40⟩] = ⟨10, 40, 0, 40, 40, 0, 0, 0⟩ := by
  refine ⟨?_, ?_, ?_, by decide⟩ <;>
    simp [processEntry_eq, metainfContrib, xmlContrib, miscContrib, entryMatched]

/-- C4: an entry matching none of the three category tests adds its
uncompressed size to `miscsize` and leaves every other category counter
unchanged; `lib/foo.so` with uncompressed size 200 contributes exactly 200 to
`miscsize`. -/
theorem c4_residual_misc (d : ApkData) (e : ZipEntry)
    (h1 : strStartsWith e.filename "META-INF/" = false)
    (h2 : isasset e.filename = false)
    (h3 : strEndsWith e.filename ".xml" = false) :
    (processEntry d e).miscsize = d.miscsize + e.file_size ∧
    (processEntry d e).assetsize = d.assetsize ∧
    (processEntry d e).metainfsize = d.metainfsize ∧
    (processEntry d e).xmlsize = d.xmlsize ∧
    (processEntry d e).cassetsize = d.cassetsize ∧
    (processEntry d e).ucassetsize = d.ucassetsize ∧
    aggregate [⟨"lib/foo.so", ZIP_DEFLATED, 120, 200⟩] = ⟨120, 200, 0, 0, 0, 200, 0, 0⟩ := by
  refine ⟨?_, ?_, ?_, ?_, ?_, ?_, by decide⟩ <;>
    simp [processEntry_eq, miscContrib, entryMatched, assetContrib, metainfContrib,
      xmlContrib, cassetContrib, ucassetContrib, h1, h2, h3]

/-- Witness for C4 at the `lib/foo.so` entry of the claim. -/
theorem c4_residual_misc_witness :
    (processEntry initApkData ⟨"lib/foo.so", ZIP_DEFLATED, 120, 200⟩).miscsize =
      initApkData.miscsize + 200 ∧
    (processEntry initApkData ⟨"lib/foo.so", ZIP_DEFLATED, 120, 200⟩).assetsize =
      initApkData.assetsize ∧
    (processEntry initApkData ⟨"lib/foo.so", ZIP_DEFLATED, 120, 200⟩).metainfsize =
      initApkData.metainfsize ∧
    (processEntry initApkData ⟨"lib/foo.so", ZIP_DEFLATED, 120, 200⟩).xmlsize =
      initApkData.xmlsize ∧
    (processEntry initApkData ⟨"lib/foo.so", ZIP_DEFLATED, 120, 200⟩).cassetsize =
      initApkData.cassetsize ∧
    (processEntry initApkData ⟨"lib/foo.so", ZIP_DEFLATED, 120, 200⟩).ucassetsize =
      initApkData.ucassetsize ∧
    aggregate [⟨"lib/foo.so", ZIP_DEFLATED, 120, 200⟩] = ⟨120, 200, 0, 0, 0, 200, 0, 0⟩ :=
  c4_residual_misc initApkData ⟨"lib/foo.so", ZIP_DEFLATED, 120, 200⟩
    (by decide) (by decide) (by decide)

/-- C5: the final `uctotalsize` is the sum of the uncompressed sizes of all
entries, independent of compression methods. -/
theorem c5_uctotal_sum (l : List ZipEntry) :
    (aggregate l).uctotalsize = (l.map ZipEntry.file_size).sum := by
  simp [aggregate_eq]

/-- C8: the final report is invariant under permutation of the entry list. -/
theorem c8_perm_invariant (l1 l2 : List ZipEntry) (h : l1.Perm l2) :
    aggregate l1 = aggregate l2 := by
  simp only [aggregate_eq, ApkData.mk.injEq]
  exact ⟨(h.map _).sum_eq, (h.map _).sum_eq, (h.map _).sum_eq, (h.map _).sum_eq,
    (h.map _).sum_eq, (h.map _).sum_eq, (h.map _).sum_eq, (h.map _).sum_eq⟩

/-- Witness for C8 on a concrete two-entry swap. -/
theorem c8_perm_invariant_witness :
    aggregate [⟨"icon.png", 0, 100, 100⟩, ⟨"b.xml", 8, 3, 7⟩] =
      aggregate [⟨"b.xml", 8, 3, 7⟩, ⟨"icon.png", 0, 100, 100⟩] :=
  c8_perm_invariant _ _ (List.Perm.swap _ _ _)

/-- C9 counterexample: the claim asserts some entry sequence makes
`assetsize` differ from `cassetsize + ucassetsize`; no such sequence exists. -/
theorem c9_counterexample :
    ¬ ∃ l : List ZipEntry,
        (aggregate l).assetsize ≠ (aggregate l).cassetsize + (aggregate l).ucassetsize :=
  fun ⟨l, hl⟩ => hl (aggregate_asset_eq l)

/-- C9 (amended): for every entry sequence the final report satisfies
`assetsize = cassetsize + ucassetsize`. -/
theorem c9_asset_sum_eq (l : List ZipEntry) :
    (aggregate l).assetsize = (aggregate l).cassetsize + (aggregate l).ucassetsize :=
  aggregate_asset_eq l

/-- C10: when every entry satisfies `compress_size ≤ file_size`, the final
report satisfies `storedsize ≤ uctotalsize`. -/
theorem c10_stored_le_uctotal (l : List ZipEntry)
    (h : ∀ e ∈ l, e.compress_size ≤ e.file_size) :
    (aggregate l).storedsize ≤ (aggregate l).uctotalsize := by
  simp only [aggregate_eq]
  apply List.sum_le_sum
  intro i hi
  simp only [storedContrib]
  split_ifs
  · exact le_refl _
  · exact h i hi

/-- Witness for C10 on a two-entry archive. -/
theorem c10_stored_le_uctotal_witness :
    (aggregate [⟨"icon.png", 0, 90, 100⟩, ⟨"a.xml", 8, 30, 70⟩]).storedsize ≤
      (aggregate [⟨"icon.png", 0, 90, 100⟩, ⟨"a.xml", 8, 30, 70⟩]).uctotalsize :=
  c10_stored_le_uctotal _ (by decide)

/-- C6 counterexample: an entry with compression method 12 (neither stored
nor deflated) is processed without error in summary-only mode and a full
report is produced for its archive, contradicting the unconditional claim
that such an entry is fatal and no report is produced. -/
theorem c6_counterexample :
    (⟨"a.txt", 12, 5, 10⟩ : ZipEntry).compress_type ≠ ZIP_STORED ∧
    (⟨"a.txt", 12, 5, 10⟩ : ZipEntry).compress_type ≠ ZIP_DEFLATED ∧
    extractapk [⟨"a.txt", 12, 5, 10⟩] true = .ok ⟨10, 10, 0, 0, 0, 10, 0, 0⟩ :=
  ⟨by decide, by decide, rfl⟩

/-- C6 (amended): with per-entry printing enabled (`totalonly = false`),
an archive containing an entry whose method is neither 0 nor 8 fails with an
unknown-compression-method error and produces no report; there is no default
label. (In summary-only mode the label lookup is skipped.) -/
theorem c6_unknown_method_fatal (l : List ZipEntry) (e : ZipEntry) (he : e ∈ l)
    (h0 : e.compress_type ≠ ZIP_STORED) (h8 : e.compress_type ≠ ZIP_DEFLATED) :
    ∃ m, m ≠ ZIP_STORED ∧ m ≠ ZIP_DEFLATED ∧
      extractapk l false = .error (.unknownCompressionMethodError m) :=
  extractapkAux_unknown l initApkData e he h0 h8

/-- Witness for C6 (amended) on a one-entry archive with method 12. -/
theorem c6_unknown_method_fatal_witness :
    ∃ m, m ≠ ZIP_STORED ∧ m ≠ ZIP_DEFLATED ∧
      extractapk [⟨"a.txt", 12, 5, 10⟩] false =
        .error (.unknownCompressionMethodError m) :=
  c6_unknown_method_fatal [⟨"a.txt", 12, 5, 10⟩] ⟨"a.txt", 12, 5, 10⟩
    (by simp) (by decide) (by decide)

/-- C7 counterexample: a batch consisting of a corrupt archive followed by a
valid one produces no report at all — in particular none for the valid
archive, although the valid archive alone does produce one — contradicting
the claim that processing continues past a bad archive. -/
theorem c7_counterexample :
    (mainBatch [.error .archiveCorruptError, .ok [⟨"a.txt", 0, 5, 5⟩]] true).1 = [] ∧
    (mainBatch [.ok [⟨"a.txt", 0, 5, 5⟩]] true).1 = [⟨5, 5, 0, 0, 0, 5, 0, 0⟩] :=
  ⟨rfl, rfl⟩

/-- C7 (amended): in directory-batch mode an archive error aborts the loop —
the failing archive and all later ones produce no reports, and the error is
the one raised by the failing archive. -/
theorem c7_batch_abort (bad : Except ApkError (List ZipEntry))
    (rest : List (Except ApkError (List ZipEntry))) (t : Bool) (e : ApkError)
    (h : parseapk bad t = .error e) :
    mainBatch (bad :: rest) t = ([], some e) := by
  simp [mainBatch, h]

/-- Witness for C7 (amended): an unopenable archive followed by a valid one. -/
theorem c7_batch_abort_witness :
    mainBatch [.error .archiveOpenError, .ok [⟨"b.txt", 0, 4, 4⟩]] true =
      ([], some .archiveOpenError) :=
  c7_batch_abort (.error .archiveOpenError) [.ok [⟨"b.txt", 0, 4, 4⟩]] true
    .archiveOpenError rfl
